import Mathlib

set_option maxRecDepth 100000

/-!
# Verification of the snapy client core

Shallow embedding of `src/snapy/__init__.py` (module-level media helpers and
the response-processing / request-building logic of the `Snapchat` class),
with the theorems that settle the specification claims.

Conventions: Python byte strings are `List Nat` (one `Nat` per byte,
`data[0:2]` is `List.take 2`, which like the Python slice never reads out of
bounds); Python `None`-able fields are `Option _`; `datetime` instants are
`Nat` epoch values; raising an exception is returning `some message` in an
explicit result component.
-/

namespace Snapy

/-! ## Media codec (src/snapy/__init__.py lines 15-53) -/

def MEDIA_IMAGE : Nat := 0

def MEDIA_VIDEO : Nat := 1

def MEDIA_VIDEO_NOAUDIO : Nat := 2

/-- `is_video(data)`: `True if data[0:2] == b'\x00\x00' else False`. -/
def is_video (data : List Nat) : Bool :=
  if data.take 2 = [0x00, 0x00] then true else false

/-- `is_image(data)`: `True if data[0:2] == b'\xFF\xD8' else False`. -/
def is_image (data : List Nat) : Bool :=
  if data.take 2 = [0xFF, 0xD8] then true else false

/-- `is_zip(data)`: `True if data[0:2] == b'PK' else False` (`PK` = `0x50 0x4B`). -/
def is_zip (data : List Nat) : Bool :=
  if data.take 2 = [0x50, 0x4B] then true else false

/-- `get_file_extension(media_type)`.  The Python argument is an int constant
or `None` (e.g. the server-supplied `media_type` metadata field), hence
`Option Nat` here. -/
def get_file_extension (media_type : Option Nat) : String :=
  if media_type = some MEDIA_VIDEO ∨ media_type = some MEDIA_VIDEO_NOAUDIO then "mp4"
  else if media_type = some MEDIA_IMAGE then "jpg"
  else ""

/-- `get_media_type(data)`: checks video, then image, then zip magic bytes;
`None` when nothing matches. -/
def get_media_type (data : List Nat) : Option Nat :=
  if is_video data then some MEDIA_VIDEO
  else if is_image data then some MEDIA_IMAGE
  else if is_zip data then some MEDIA_VIDEO
  else none

end Snapy

namespace Snapy

/-! ## Session state (Snapchat.__init__, lines 82-88)

`username`, `auth_token`, `gmail`, `gpasswd` and `gauth` start as `None`;
`expiry` starts at the epoch (`datetime.fromtimestamp(0)`), modelled as 0. -/

structure Session where
  username : Option String
  auth_token : Option String
  gmail : Option String
  gpasswd : Option String
  gauth : Option String
  expiry : Nat
deriving DecidableEq, Repr

/-- `Snapchat.__init__`: the fresh, unauthenticated session. -/
def newSession : Session :=
  { username := none, auth_token := none, gmail := none, gpasswd := none,
    gauth := none, expiry := 0 }

/-! ## Secondary-token refresh (Snapchat._get_gauth, lines 103-113)

The two effectful ingredients are passed in explicitly: `now` is the value of
`datetime.now()`, and `fresh` is the `(token, expiry)` pair that
`get_auth_token(self.gmail, self.gpasswd)` would return if called.  The third
component of the result counts how many identity-provider calls the method
performed. -/

def get_gauth (now : Nat) (fresh : String × Nat) (s : Session) :
    Session × Option String × Nat :=
  if s.expiry ≤ now then
    ({ s with gauth := some fresh.1, expiry := fresh.2 }, some fresh.1, 1)
  else
    (s, s.gauth, 0)

/-! ## Login response processing (Snapchat.login, lines 152-189)

Everything from the `self._unset_auth()` call through the `return result`:
the fields of the parsed JSON response that the code inspects are
`updates_response` (an object whose `auth_token` and `username` keys are
checked for presence; only `auth_token`'s value is read) and the top-level
`message` (read with default `'unknown error'`).  A raised exception is the
`some message` second component of the result. -/

structure UpdatesResponse where
  auth_token : Option String
  has_username : Bool
deriving DecidableEq, Repr

structure LoginResult where
  updates_response : Option UpdatesResponse
  message : Option String
deriving DecidableEq, Repr

/-- Whether the response carries a bearer token (the `auth_token` key of
`updates_response`), and its value. -/
def response_auth_token (result : LoginResult) : Option String :=
  match result.updates_response with
  | some ur => ur.auth_token
  | none => none

/-- Whether the response carries the `username` key inside
`updates_response`. -/
def response_has_username (result : LoginResult) : Bool :=
  match result.updates_response with
  | some ur => ur.has_username
  | none => false

/-- Lines 153 and 176-189 of `Snapchat.login`: clear both credential fields
(`_unset_auth`), repopulate each from the response when its key is present,
then raise (second component `some msg`) exactly when both are still
`None`. -/
def login_process (username : String) (result : LoginResult) (s : Session) :
    Session × Option String :=
  let s1 : Session := { s with username := none, auth_token := none }
  let s2 : Session :=
    match result.updates_response with
    | some ur =>
      let sa : Session :=
        match ur.auth_token with
        | some t => { s1 with auth_token := some t }
        | none => s1
      if ur.has_username then { sa with username := some username } else sa
    | none => s1
  if s2.username = none ∧ s2.auth_token = none then
    (s2, some (result.message.getD "unknown error"))
  else
    (s2, none)

/-! ## Request construction

`Snapchat._request` (lines 90-93) forwards `self.auth_token` to
`snapy.utils.request` together with the per-call form data and query params.
Each builder below records, for one call site, the endpoint, the form-field
names (values elided — no claim depends on them), the query params with their
values, and the bearer token handed to the transport. -/

structure Request where
  endpoint : String
  dataKeys : List String
  params : List (String × String)
  token : Option String
deriving DecidableEq, Repr

/-- Lines 155-174: the `/loq/login` request. -/
def login_req (s : Session) (now gauth : String) : Request :=
  { endpoint := "/loq/login",
    dataKeys := ["username", "password", "height", "width", "max_video_height",
                 "max_video_width", "dsig", "dtoken1i", "ptoken", "attestation",
                 "sflag", "application_id", "req_token"],
    params := [("now", now), ("gauth", gauth)],
    token := s.auth_token }

/-- Lines 95-97: the `/loq/device_id` request — `gauth` only, no `now`. -/
def device_token_req (s : Session) (gauth : String) : Request :=
  { endpoint := "/loq/device_id", dataKeys := [],
    params := [("gauth", gauth)], token := s.auth_token }

/-- Lines 205-216: the `/loq/all_updates` request. -/
def get_updates_req (s : Session) (now gauth : String) : Request :=
  { endpoint := "/loq/all_updates",
    dataKeys := ["timestamp", "username", "height", "width",
                 "max_video_height", "max_video_width"],
    params := [("now", now), ("gauth", gauth)], token := s.auth_token }

/-- Lines 191-196: the `logout` request — no query params at all. -/
def logout_req (s : Session) : Request :=
  { endpoint := "logout", dataKeys := ["username"], params := [],
    token := s.auth_token }

/-- Lines 301-303: the `/bq/story_blob` request — no query params at all. -/
def get_story_blob_req (s : Session) : Request :=
  { endpoint := "/bq/story_blob", dataKeys := ["story_id"], params := [],
    token := s.auth_token }

/-- Lines 314-317: the `/bq/blob` request. -/
def get_blob_req (s : Session) (now gauth : String) : Request :=
  { endpoint := "/bq/blob", dataKeys := ["id", "timestamp", "username"],
    params := [("now", now), ("gauth", gauth)], token := s.auth_token }

/-- Lines 329-336: the `/bq/update_snaps` request. -/
def send_events_req (s : Session) (now gauth : String) : Request :=
  { endpoint := "/bq/update_snaps", dataKeys := ["events", "json", "username"],
    params := [("now", now), ("gauth", gauth)], token := s.auth_token }

/-! ## Media cipher

`encrypt`/`decrypt` live in `snapy/utils.py`, which is not part of the
sources here (only its import at `src/snapy/__init__.py` lines 10-13 is), so
the cipher is modelled from the spec: a fixed symmetric block cipher, block
size 16, PKCS-style padding appended on encryption and removed (with
validation) on decryption, the keystream derived from the key alone.  The
block transform is modelled as the byte-wise xor of the data with the
key-derived stream — a symmetric (self-inverse) transform, as the spec's
round-trip contract requires. -/

def blockSize : Nat := 16

/-- The key-derived stream of `n` bytes: the key's bytes repeated. -/
def keystream (key : List Nat) (n : Nat) : List Nat :=
  (List.range n).map (fun i => key.getD (i % key.length) 0)

/-- Byte-wise xor of two byte strings. -/
def xorBytes (a b : List Nat) : List Nat :=
  List.zipWith (fun x y => x ^^^ y) a b

/-- PKCS-style padding: append `k` copies of the byte `k`, where
`k = blockSize - len mod blockSize` (so always between 1 and `blockSize`). -/
def pkcsPad (m : List Nat) : List Nat :=
  m ++ List.replicate (blockSize - m.length % blockSize)
        (blockSize - m.length % blockSize)

/-- PKCS-style padding removal; `none` on malformed padding. -/
def pkcsUnpad (c : List Nat) : Option (List Nat) :=
  match c.getLast? with
  | none => none
  | some k =>
    if 1 ≤ k ∧ k ≤ blockSize ∧ k ≤ c.length
        ∧ (c.drop (c.length - k)).all (fun b => b == k)
    then some (c.take (c.length - k))
    else none

/-- Modelled from the spec: `encrypt` of `snapy/utils.py` (missing from the
sources) — pad the plaintext to a whole number of blocks, then apply the
fixed symmetric transform under `key`. -/
def encrypt (m key : List Nat) : List Nat :=
  xorBytes (pkcsPad m) (keystream key (pkcsPad m).length)

/-- Modelled from the spec: `decrypt` of `snapy/utils.py` (missing from the
sources) — apply the inverse transform under `key`, then remove and validate
the padding, failing (`none`, the spec's `DecodeError`) when it is
malformed. -/
def decrypt (c key : List Nat) : Option (List Nat) :=
  pkcsUnpad (xorBytes c (keystream key c.length))

end Snapy

namespace Snapy

/-! ## Per-request signature (Snapchat.login, line 162)

The `dsig` form field is
`hmac.new(str(dtoken['dtoken1v']), string, sha256).hexdigest()[:20]` with
`string = username + "|" + password + "|" + now + "|" + req_token`: HMAC
(RFC 2104, block size 64) over SHA-256 (FIPS 180-4), hex-encoded and
truncated to the first 20 hex characters.  Both algorithms are embedded
below; 32-bit machine words are `Nat` reduced `% w32` wherever the source
algorithm overflows.  Python 2 `str` values are byte strings; a Lean
`String` is turned into its bytes one `Char` per byte (the repository only
ever signs ASCII data). -/

def w32 : Nat := 4294967296

/-- 32-bit right rotation. -/
def rotr (n x : Nat) : Nat := ((x >>> n) ||| (x <<< (32 - n))) % w32

def bsig0 (x : Nat) : Nat := rotr 2 x ^^^ rotr 13 x ^^^ rotr 22 x

def bsig1 (x : Nat) : Nat := rotr 6 x ^^^ rotr 11 x ^^^ rotr 25 x

def ssig0 (x : Nat) : Nat := rotr 7 x ^^^ rotr 18 x ^^^ (x >>> 3)

def ssig1 (x : Nat) : Nat := rotr 17 x ^^^ rotr 19 x ^^^ (x >>> 10)

/-- SHA-256 choice function; `x ^^^ 0xFFFFFFFF` is 32-bit complement. -/
def ch (x y z : Nat) : Nat := (x &&& y) ^^^ ((x ^^^ 4294967295) &&& z)

def maj (x y z : Nat) : Nat := (x &&& y) ^^^ (x &&& z) ^^^ (y &&& z)

/-- The 64 SHA-256 round constants (FIPS 180-4 §4.2.2, written in
decimal). -/
def roundConstants : List Nat :=
  [1116352408, 1899447441, 3049323471, 3921009573, 961987163,
   1508970993, 2453635748, 2870763221, 3624381080, 310598401,
   607225278, 1426881987, 1925078388, 2162078206, 2614888103,
   3248222580, 3835390401, 4022224774, 264347078, 604807628,
   770255983, 1249150122, 1555081692, 1996064986, 2554220882,
   2821834349, 2952996808, 3210313671, 3336571891, 3584528711,
   113926993, 338241895, 666307205, 773529912, 1294757372,
   1396182291, 1695183700, 1986661051, 2177026350, 2456956037,
   2730485921, 2820302411, 3259730800, 3345764771, 3516065817,
   3600352804, 4094571909, 275423344, 430227734, 506948616,
   659060556, 883997877, 958139571, 1322822218, 1537002063,
   1747873779, 1955562222, 2024104815, 2227730452, 2361852424,
   2428436474, 2756734187, 3204031479, 3329325298]

/-- A SHA-256 working state / digest: eight 32-bit words. -/
structure Hash8 where
  h0 : Nat
  h1 : Nat
  h2 : Nat
  h3 : Nat
  h4 : Nat
  h5 : Nat
  h6 : Nat
  h7 : Nat
deriving Repr, DecidableEq

/-- The eight SHA-256 initial hash values (FIPS 180-4 §5.3.3, in decimal). -/
def initialHash : Hash8 :=
  ⟨1779033703, 3144134277, 1013904242, 2773480762,
   1359893119, 2600822924, 528734635, 1541459225⟩

/-- `n`-byte big-endian encoding of `v`. -/
def toBytesBE : Nat → Nat → List Nat
  | 0, _ => []
  | n + 1, v => toBytesBE n (v / 256) ++ [v % 256]

/-- Big-endian 32-bit words from bytes (whole words only). -/
def bytesToWords : List Nat → List Nat
  | b0 :: b1 :: b2 :: b3 :: rest =>
      (((b0 * 256 + b1) * 256 + b2) * 256 + b3) :: bytesToWords rest
  | _ => []

/-- SHA-256 padding: `0x80`, zeros to 56 mod 64, 8-byte bit length. -/
def padMessage (msg : List Nat) : List Nat :=
  msg ++ [128] ++ List.replicate ((64 - (msg.length + 9) % 64) % 64) 0
      ++ toBytesBE 8 (8 * msg.length)

/-- Extend the 16 chunk words by `n` more schedule words. -/
def extendSchedule : Nat → List Nat → List Nat
  | 0, ws => ws
  | n + 1, ws =>
      let i := ws.length
      extendSchedule n (ws ++ [(ssig1 (ws.getD (i - 2) 0) + ws.getD (i - 7) 0
        + ssig0 (ws.getD (i - 15) 0) + ws.getD (i - 16) 0) % w32])

/-- One SHA-256 compression round; `kw` is round constant plus schedule word. -/
def compressStep (st : Hash8) (kw : Nat) : Hash8 :=
  let t1 := (st.h7 + bsig1 st.h4 + ch st.h4 st.h5 st.h6 + kw) % w32
  let t2 := (bsig0 st.h0 + maj st.h0 st.h1 st.h2) % w32
  ⟨(t1 + t2) % w32, st.h0, st.h1, st.h2, (st.h3 + t1) % w32, st.h4, st.h5, st.h6⟩

/-- Compress one 64-byte chunk into the running hash. -/
def processChunk (acc : Hash8) (chunk : List Nat) : Hash8 :=
  let ws := extendSchedule 48 (bytesToWords chunk)
  let kws := List.zipWith (fun kc w => (kc + w) % w32) roundConstants ws
  let st := kws.foldl compressStep acc
  ⟨(acc.h0 + st.h0) % w32, (acc.h1 + st.h1) % w32, (acc.h2 + st.h2) % w32,
   (acc.h3 + st.h3) % w32, (acc.h4 + st.h4) % w32, (acc.h5 + st.h5) % w32,
   (acc.h6 + st.h6) % w32, (acc.h7 + st.h7) % w32⟩

/-- Split into 64-byte chunks (structural recursion on a fuel bound so the
definition reduces; the fuel `l.length` is always enough since every step
consumes at least one byte). -/
def chunks64Aux : Nat → List Nat → List (List Nat)
  | 0, _ => []
  | _ + 1, [] => []
  | fuel + 1, b :: rest =>
      (b :: rest).take 64 :: chunks64Aux fuel ((b :: rest).drop 64)

def chunks64 (l : List Nat) : List (List Nat) :=
  chunks64Aux l.length l

def sha256 (msg : List Nat) : Hash8 :=
  (chunks64 (padMessage msg)).foldl processChunk initialHash

/-- Big-endian bytes of one 32-bit word. -/
def wordBytes (x : Nat) : List Nat :=
  [x / 16777216 % 256, x / 65536 % 256, x / 256 % 256, x % 256]

/-- The 32 digest bytes. -/
def digestBytes (st : Hash8) : List Nat :=
  wordBytes st.h0 ++ wordBytes st.h1 ++ wordBytes st.h2 ++ wordBytes st.h3
    ++ wordBytes st.h4 ++ wordBytes st.h5 ++ wordBytes st.h6 ++ wordBytes st.h7

/-- HMAC-SHA256, block size 64: hash over-long keys, zero-pad to 64, the
usual `0x36`/`0x5c` inner and outer pads. -/
def hmacSha256 (key msg : List Nat) : List Nat :=
  let k1 := if 64 < key.length then digestBytes (sha256 key) else key
  let k0 := k1 ++ List.replicate (64 - k1.length) 0
  digestBytes (sha256 ((k0.map (fun b => b ^^^ 92))
    ++ digestBytes (sha256 ((k0.map (fun b => b ^^^ 54)) ++ msg))))

/-- Lowercase hex digit. -/
def hexDigitChar (n : Nat) : Char :=
  if n < 10 then Char.ofNat (48 + n) else Char.ofNat (87 + n)

/-- Lowercase hex encoding (`hexdigest`): two characters per byte. -/
def bytesHex (bs : List Nat) : List Char :=
  bs.flatMap (fun b => [hexDigitChar (b / 16), hexDigitChar (b % 16)])

/-- A Python 2 `str` as its bytes, one `Char` per byte. -/
def strBytes (s : String) : List Nat := s.toList.map Char.toNat

/-- Line 162 of `Snapchat.login`: the `dsig` form field —
`hmac.new(str(dtoken['dtoken1v']), string, sha256).hexdigest()[:20]` over
`username + "|" + password + "|" + now + "|" + req_token`. -/
def make_dsig (dtoken1v username password now req_token : String) : String :=
  String.mk ((bytesHex (hmacSha256 (strBytes dtoken1v)
    (strBytes (username ++ "|" ++ password ++ "|" ++ now ++ "|" ++ req_token)))).take 20)

end Snapy

namespace Snapy

/-! ## Claim theorems: media codec -/

/-- Claim C2: classification by the first two bytes.  A byte string starting
with `FF D8` classifies as Image, `00 00` as Video, `50 4B` (`PK`) as Video;
everything else — in particular the empty string and every 1-byte string,
whose 2-byte slice is shorter than 2 — classifies as Unknown (`none`), and
the classifier is a total function. -/
theorem get_media_type_magic_bytes (data : List Nat) :
    get_media_type data =
      (if data.take 2 = [0xFF, 0xD8] then some MEDIA_IMAGE
       else if data.take 2 = [0x00, 0x00] then some MEDIA_VIDEO
       else if data.take 2 = [0x50, 0x4B] then some MEDIA_VIDEO
       else none) := by
  simp only [get_media_type, is_video, is_image, is_zip]
  split_ifs <;> simp_all

/-- Claim C8: the extension mapping.  Video and VideoNoAudio map to `"mp4"`,
Image maps to `"jpg"`, every other media-type value — `None` (Unknown) or any
other integer — maps to the empty string; and a blob whose bytes begin with
`FF D8` is classified Image and so receives extension `"jpg"`. -/
theorem get_file_extension_mapping :
    get_file_extension (some MEDIA_VIDEO) = "mp4"
    ∧ get_file_extension (some MEDIA_VIDEO_NOAUDIO) = "mp4"
    ∧ get_file_extension (some MEDIA_IMAGE) = "jpg"
    ∧ get_file_extension none = ""
    ∧ (∀ n : Nat, n ≠ MEDIA_IMAGE → n ≠ MEDIA_VIDEO → n ≠ MEDIA_VIDEO_NOAUDIO →
        get_file_extension (some n) = "")
    ∧ (∀ data : List Nat, data.take 2 = [0xFF, 0xD8] →
        get_media_type data = some MEDIA_IMAGE
        ∧ get_file_extension (get_media_type data) = "jpg") := by
  refine ⟨rfl, rfl, rfl, rfl, ?_, ?_⟩
  · intro n h0 h1 h2
    simp only [MEDIA_IMAGE, MEDIA_VIDEO, MEDIA_VIDEO_NOAUDIO] at h0 h1 h2
    simp [get_file_extension, MEDIA_IMAGE, MEDIA_VIDEO, MEDIA_VIDEO_NOAUDIO, h0, h1, h2]
  · intro data h
    have him : get_media_type data = some MEDIA_IMAGE := by
      simp [get_media_type, is_video, is_image, is_zip, h]
    exact ⟨him, by rw [him]; rfl⟩

/-- Witness for C8 at concrete inputs: media type 7 gets the empty extension,
and the bytes `FF D8 FF E0` classify as Image with extension `"jpg"`. -/
theorem get_file_extension_mapping_witness :
    get_file_extension (some 7) = ""
    ∧ get_media_type [0xFF, 0xD8, 0xFF, 0xE0] = some MEDIA_IMAGE
    ∧ get_file_extension (get_media_type [0xFF, 0xD8, 0xFF, 0xE0]) = "jpg" :=
  ⟨get_file_extension_mapping.2.2.2.2.1 7 (by decide) (by decide) (by decide),
   (get_file_extension_mapping.2.2.2.2.2 [0xFF, 0xD8, 0xFF, 0xE0] rfl).1,
   (get_file_extension_mapping.2.2.2.2.2 [0xFF, 0xD8, 0xFF, 0xE0] rfl).2⟩

/-- Claim C10: zip-wrapped blobs are not distinguishable downstream.  Any byte
string starting with `50 4B` (`PK`) gets exactly the `MEDIA_VIDEO` constant —
the same value as any byte string starting with `00 00` — and therefore
extension `"mp4"`. -/
theorem zip_collapses_to_video (data d2 : List Nat)
    (h : data.take 2 = [0x50, 0x4B]) (h2 : d2.take 2 = [0x00, 0x00]) :
    get_media_type data = some MEDIA_VIDEO
    ∧ get_media_type data = get_media_type d2
    ∧ get_file_extension (get_media_type data) = "mp4" := by
  have hz : get_media_type data = some MEDIA_VIDEO := by
    simp [get_media_type, is_video, is_image, is_zip, h]
  have hv : get_media_type d2 = some MEDIA_VIDEO := by
    simp [get_media_type, is_video, h2]
  exact ⟨hz, by rw [hz, hv], by rw [hz]; rfl⟩

/-- Witness for C10 at concrete inputs: a zip local-file-header prefix and a
video prefix. -/
theorem zip_collapses_to_video_witness :
    get_media_type [0x50, 0x4B, 0x03, 0x04] = some MEDIA_VIDEO
    ∧ get_media_type [0x50, 0x4B, 0x03, 0x04] = get_media_type [0x00, 0x00, 0x01]
    ∧ get_file_extension (get_media_type [0x50, 0x4B, 0x03, 0x04]) = "mp4" :=
  zip_collapses_to_video [0x50, 0x4B, 0x03, 0x04] [0x00, 0x00, 0x01] rfl rfl

/-! ## Claim theorems: login and session state -/

/-- Claim C3: `login` raises, carrying the server's message, exactly when the
response lacks both the `username` key and the bearer token: it raises if and
only if both are missing, and when the response does carry a `message` field
the raised error's message is that field's value. -/
theorem login_raises_iff_missing_both (u : String) (result : LoginResult) (s : Session) :
    ((login_process u result s).2.isSome = true ↔
      response_has_username result = false ∧ response_auth_token result = none)
    ∧ (∀ m : String, result.message = some m →
        (login_process u result s).2.isSome = true →
        (login_process u result s).2 = some m) := by
  rcases result with ⟨ur, msg⟩
  rcases ur with _ | ⟨tok, hu⟩
  · constructor
    · simp [login_process, response_has_username, response_auth_token]
    · intro m hm
      simp only [] at hm
      simp [login_process, hm]
  · rcases tok with _ | t <;> rcases hu with _ | _ <;> constructor <;> intros <;>
      simp_all [login_process, response_has_username, response_auth_token]

/-- Witness for C3: a rejected-credentials response with neither key raises
with the server's message. -/
theorem login_raises_iff_missing_both_witness :
    (login_process "user"
        { updates_response := none,
          message := some "Invalid username or password" } newSession).2
      = some "Invalid username or password" := by
  have h := login_raises_iff_missing_both "user"
    { updates_response := none, message := some "Invalid username or password" }
    newSession
  exact h.2 "Invalid username or password" rfl (h.1.mpr (by decide))

/-- Claim C9: login failure is atomic for the credential fields.  Whenever
`login_process` raises, the resulting session's `username` and `auth_token`
are both `None` — they were cleared by `_unset_auth` before the request and
are only repopulated from keys present in the response. -/
theorem login_failure_clears_credentials (u : String) (result : LoginResult)
    (s : Session) (h : (login_process u result s).2.isSome = true) :
    (login_process u result s).1.username = none
    ∧ (login_process u result s).1.auth_token = none := by
  rcases result with ⟨ur, msg⟩
  rcases ur with _ | ⟨tok, hu⟩
  · simp [login_process]
  · rcases tok with _ | t <;> rcases hu with _ | _ <;>
      simp_all [login_process]

/-- Witness for C9 at a concrete failing response. -/
theorem login_failure_clears_credentials_witness :
    (login_process "user"
        { updates_response := some { auth_token := none, has_username := false },
          message := some "denied" } newSession).1.username = none
    ∧ (login_process "user"
        { updates_response := some { auth_token := none, has_username := false },
          message := some "denied" } newSession).1.auth_token = none :=
  login_failure_clears_credentials "user"
    { updates_response := some { auth_token := none, has_username := false },
      message := some "denied" } newSession (by decide)

/-- Counterexample to claim C4: the response
`{updates_response: {auth_token: "tok"}}` — a bearer token but no `username`
key — makes `login` complete without raising, yet leaves the session neither
Authenticated (both fields populated) nor Unauthenticated (both unset):
`auth_token` is kept while `username` stays `None`. -/
theorem login_no_revert_counterexample :
    (login_process "alice"
        { updates_response := some { auth_token := some "tok", has_username := false },
          message := none } newSession).2 = none
    ∧ ¬(((login_process "alice"
        { updates_response := some { auth_token := some "tok", has_username := false },
          message := none } newSession).1.username).isSome = true
        ∧ ((login_process "alice"
        { updates_response := some { auth_token := some "tok", has_username := false },
          message := none } newSession).1.auth_token).isSome = true)
    ∧ ¬((login_process "alice"
        { updates_response := some { auth_token := some "tok", has_username := false },
          message := none } newSession).1.username = none
        ∧ (login_process "alice"
        { updates_response := some { auth_token := some "tok", has_username := false },
          message := none } newSession).1.auth_token = none) := by
  decide

/-- Claim C4 as amended: after a completed login call each credential field
mirrors its own key in the response — `username` is populated iff the
response carried a `username` key, `auth_token` is exactly the response's
bearer token — and login raises iff both were missing.  In particular the
session is Authenticated only when both were present, reverts to
Unauthenticated when both were absent, and keeps exactly the present one on a
partial response. -/
theorem login_state_characterization (u : String) (result : LoginResult) (s : Session) :
    (login_process u result s).1.username
      = (if response_has_username result then some u else none)
    ∧ (login_process u result s).1.auth_token = response_auth_token result
    ∧ ((login_process u result s).2.isSome = true ↔
        response_has_username result = false ∧ response_auth_token result = none) := by
  rcases result with ⟨ur, msg⟩
  rcases ur with _ | ⟨tok, hu⟩
  · simp [login_process, response_has_username, response_auth_token]
  · rcases tok with _ | t <;> rcases hu with _ | _ <;>
      simp [login_process, response_has_username, response_auth_token]

/-! ## Claim theorems: secondary token and request parameters -/

/-- Claim C6: lazy secondary-token refresh.  If the current instant is
strictly before the stored expiry, `_get_gauth` returns the cached token with
zero identity-provider calls and an unchanged session; if it is at or past
the expiry, exactly one refresh call is made and the fresh token and expiry
replace the cached pair, with the fresh token returned; and the cached token
is only ever returned strictly before its expiry. -/
theorem gauth_lazy_refresh (now : Nat) (fresh : String × Nat) (s : Session) :
    (now < s.expiry → get_gauth now fresh s = (s, s.gauth, 0))
    ∧ (s.expiry ≤ now →
        (get_gauth now fresh s).1.gauth = some fresh.1
        ∧ (get_gauth now fresh s).1.expiry = fresh.2
        ∧ (get_gauth now fresh s).2.1 = some fresh.1
        ∧ (get_gauth now fresh s).2.2 = 1)
    ∧ ((get_gauth now fresh s).2.2 = 0 → now < s.expiry) := by
  refine ⟨fun hlt => ?_, fun hge => ?_, fun hz => ?_⟩
  · simp [get_gauth, Nat.not_le.mpr hlt]
  · simp [get_gauth, hge]
  · by_cases h : s.expiry ≤ now
    · simp [get_gauth, h] at hz
    · exact Nat.not_le.mp h

/-- Witness for C6: with expiry 10, a call at instant 3 reuses the cache with
no refresh, and a call at instant 12 performs exactly one refresh. -/
theorem gauth_lazy_refresh_witness :
    get_gauth 3 ("new", 99)
        { newSession with gauth := some "old", expiry := 10 }
      = ({ newSession with gauth := some "old", expiry := 10 }, some "old", 0)
    ∧ (get_gauth 12 ("new", 99)
        { newSession with gauth := some "old", expiry := 10 }).2.2 = 1 :=
  ⟨(gauth_lazy_refresh 3 ("new", 99)
      { newSession with gauth := some "old", expiry := 10 }).1 (by decide),
   ((gauth_lazy_refresh 12 ("new", 99)
      { newSession with gauth := some "old", expiry := 10 }).2.1 (by decide)).2.2.2⟩

/-- Counterexample to claim C5: the story-blob fetch and logout requests of
an authenticated session carry no query parameters at all — neither `now`
nor `gauth` appears among their parameter keys. -/
theorem requests_missing_now_gauth_counterexample :
    (get_story_blob_req
        { newSession with username := some "alice", auth_token := some "tok" }).params = []
    ∧ ¬("now" ∈ ((get_story_blob_req
        { newSession with username := some "alice", auth_token := some "tok" }).params.map
          Prod.fst))
    ∧ ¬("gauth" ∈ ((get_story_blob_req
        { newSession with username := some "alice", auth_token := some "tok" }).params.map
          Prod.fst))
    ∧ (logout_req
        { newSession with username := some "alice", auth_token := some "tok" }).params = []
    ∧ ¬("now" ∈ ((logout_req
        { newSession with username := some "alice", auth_token := some "tok" }).params.map
          Prod.fst)) := by
  decide

/-- Claim C5 as amended: every modelled request hands the session's current
bearer token to the transport layer, and the `now`/`gauth` query parameters
are carried by the login, all-updates, blob and update-snaps requests; the
device-token fetch carries `gauth` only, and the story-blob fetch and logout
carry no query parameters. -/
theorem request_token_and_params (s : Session) (now gauth : String) :
    (login_req s now gauth).token = s.auth_token
    ∧ (device_token_req s gauth).token = s.auth_token
    ∧ (get_updates_req s now gauth).token = s.auth_token
    ∧ (logout_req s).token = s.auth_token
    ∧ (get_story_blob_req s).token = s.auth_token
    ∧ (get_blob_req s now gauth).token = s.auth_token
    ∧ (send_events_req s now gauth).token = s.auth_token
    ∧ ("now", now) ∈ (login_req s now gauth).params
    ∧ ("gauth", gauth) ∈ (login_req s now gauth).params
    ∧ ("now", now) ∈ (get_updates_req s now gauth).params
    ∧ ("gauth", gauth) ∈ (get_updates_req s now gauth).params
    ∧ ("now", now) ∈ (get_blob_req s now gauth).params
    ∧ ("gauth", gauth) ∈ (get_blob_req s now gauth).params
    ∧ ("now", now) ∈ (send_events_req s now gauth).params
    ∧ ("gauth", gauth) ∈ (send_events_req s now gauth).params
    ∧ (device_token_req s gauth).params = [("gauth", gauth)]
    ∧ (get_story_blob_req s).params = []
    ∧ (logout_req s).params = [] := by
  simp [login_req, device_token_req, get_updates_req, logout_req,
        get_story_blob_req, get_blob_req, send_events_req]

/-! ## Cipher round trip -/

theorem length_keystream (key : List Nat) (n : Nat) : (keystream key n).length = n := by
  simp [keystream]

theorem xorBytes_cancel (a : List Nat) :
    ∀ b : List Nat, a.length ≤ b.length → xorBytes (xorBytes a b) b = a := by
  induction a with
  | nil => intro b _; cases b <;> simp [xorBytes]
  | cons x xs ih =>
    intro b hb
    cases b with
    | nil => simp at hb
    | cons y ys =>
      simp only [xorBytes, List.zipWith_cons_cons]
      have h1 : (x ^^^ y) ^^^ y = x := Nat.xor_cancel_right y x
      have h2 := ih ys (by simpa using hb)
      simp only [xorBytes] at h2
      rw [h1, h2]

theorem getLast?_replicate_of_ne_zero (n : Nat) (a : Nat) (h : n ≠ 0) :
    (List.replicate n a).getLast? = some a := by
  induction n with
  | zero => exact absurd rfl h
  | succ n ih =>
    cases n with
    | zero => rfl
    | succ n' =>
      rw [List.replicate_succ, List.replicate_succ, List.getLast?_cons_cons,
          ← List.replicate_succ]
      exact ih (Nat.succ_ne_zero n')

theorem pkcsUnpad_pkcsPad (m : List Nat) : pkcsUnpad (pkcsPad m) = some m := by
  have hlt : m.length % blockSize < blockSize := Nat.mod_lt _ (by simp [blockSize])
  set k := blockSize - m.length % blockSize with hk
  have hk1 : 1 ≤ k := by omega
  have hlast : (pkcsPad m).getLast? = some k := by
    rw [pkcsPad, ← hk,
        List.getLast?_append_of_ne_nil _ (by simp; omega),
        getLast?_replicate_of_ne_zero _ _ (by omega)]
  have hlen : (pkcsPad m).length = m.length + k := by
    simp [pkcsPad, ← hk]
  have hdrop : (pkcsPad m).drop ((pkcsPad m).length - k) = List.replicate k k := by
    rw [hlen, Nat.add_sub_cancel, pkcsPad, ← hk]
    simp
  have htake : (pkcsPad m).take ((pkcsPad m).length - k) = m := by
    rw [hlen, Nat.add_sub_cancel, pkcsPad, ← hk]
    simp
  have hcond : 1 ≤ k ∧ k ≤ blockSize ∧ k ≤ (pkcsPad m).length
      ∧ ((pkcsPad m).drop ((pkcsPad m).length - k)).all (fun b => b == k) = true := by
    refine ⟨hk1, by omega, by omega, ?_⟩
    rw [hdrop]
    simp
  unfold pkcsUnpad
  rw [hlast]
  show (if 1 ≤ k ∧ k ≤ blockSize ∧ k ≤ (pkcsPad m).length
      ∧ ((pkcsPad m).drop ((pkcsPad m).length - k)).all (fun b => b == k)
    then some ((pkcsPad m).take ((pkcsPad m).length - k)) else none) = some m
  rw [if_pos hcond, htake]

/-- Claim C7: the cipher round trip.  For every key and every plaintext of
length 0, length 1, or a multiple of the block size, decrypting the
encryption of the plaintext under that key yields the original plaintext. -/
theorem decrypt_encrypt_roundtrip (key m : List Nat)
    (_h : m.length = 0 ∨ m.length = 1 ∨ m.length % blockSize = 0) :
    decrypt (encrypt m key) key = some m := by
  have hlen : (encrypt m key).length = (pkcsPad m).length := by
    simp [encrypt, xorBytes, length_keystream]
  rw [decrypt, hlen, encrypt,
      xorBytes_cancel (pkcsPad m) _ (by rw [length_keystream])]
  exact pkcsUnpad_pkcsPad m

/-- Witness for C7: round trip at a concrete 1-byte plaintext and 2-byte
key. -/
theorem decrypt_encrypt_roundtrip_witness :
    decrypt (encrypt [5] [9, 33]) [9, 33] = some [5] :=
  decrypt_encrypt_roundtrip [9, 33] [5] (Or.inr (Or.inl rfl))

/-! ## The per-request signature

Sanity anchors first: the embedded SHA-256 and HMAC agree with the FIPS
180-4 and RFC 4231 test vectors, so `make_dsig` computes exactly what
`hmac.new(key, string, sha256).hexdigest()` does. -/

theorem sha256_empty_vector :
    String.mk (bytesHex (digestBytes (sha256 []))) =
      "e3b0c44298fc1c149afbf4c8996fb92427ae41e4649b934ca495991b7852b855" := by
  decide

theorem sha256_abc_vector :
    String.mk (bytesHex (digestBytes (sha256 (strBytes "abc")))) =
      "ba7816bf8f01cfea414140de5dae2223b00361a396177a9cb410ff61f20015ad" := by
  decide

theorem hmac_rfc4231_vector :
    String.mk (bytesHex (hmacSha256 (List.replicate 20 0x0b) (strBytes "Hi There"))) =
      "b0344c61d8db38535ca8afceaf0bf12b881dc200c9833da726e9376c2e32cff7" := by
  decide

theorem length_digestBytes (st : Hash8) : (digestBytes st).length = 32 := rfl

theorem length_bytesHex (bs : List Nat) : (bytesHex bs).length = 2 * bs.length := by
  induction bs with
  | nil => rfl
  | cons b tl ih =>
    simp [bytesHex] at ih ⊢
    omega

theorem length_hmacSha256 (key msg : List Nat) : (hmacSha256 key msg).length = 32 := by
  simp [hmacSha256, length_digestBytes]

/-- Claim C1: the per-request signature `dsig` is a deterministic keyed hash
— HMAC-SHA256 of the pipe-delimited concatenation of username, password,
timestamp and request token — truncated to 20 hex characters: identical
input tuples give the identical signature string, and the string always has
the fixed length 20. -/
theorem dsig_deterministic_fixed_length
    (dtoken1v username password now req_token : String) :
    make_dsig dtoken1v username password now req_token
      = make_dsig dtoken1v username password now req_token
    ∧ (make_dsig dtoken1v username password now req_token).length = 20 := by
  refine ⟨rfl, ?_⟩
  have h64 : (bytesHex (hmacSha256 (strBytes dtoken1v)
      (strBytes (username ++ "|" ++ password ++ "|" ++ now ++ "|"
        ++ req_token)))).length = 64 := by
    rw [length_bytesHex, length_hmacSha256]
  simp [make_dsig, String.length, h64]

end Snapy
